import Mathlib

/-!
# karaqueue — shallow embedding and verification

A shallow embedding of the queueing and background-processing core of the
karaqueue Discord bot (src/main.py, src/karaqueue/common.py,
src/karaqueue/utils.py), with theorems checking the natural-language
specification against the code.

Conventions of the embedding:
- Python mutable objects become immutable Lean structures with explicit
  state passing; a method that mutates `self` becomes a function returning
  the updated structure.
- External effects (load functions, `ffprobe`/`sox`/`ffmpeg` subprocess
  calls, cancellation events) are resolved by an explicit environment
  (`PipeEnv`) holding the outcome of each external interaction; a non-zero
  exit of a subprocess corresponds to `subprocess.CalledProcessError`
  raised by `utils.call` (src/karaqueue/utils.py lines 9-31).
- Python exceptions become an explicit `Option PyExc` component of the
  result: `none` means the function returned normally.
-/

namespace Karaqueue

/-- `MAX_QUEUED = 20`, src/karaqueue/common.py line 31. -/
def MAX_QUEUED : Nat := 20

/-- `MAX_QUEUED_PER_USER = 2`, src/karaqueue/common.py line 32. -/
def MAX_QUEUED_PER_USER : Nat := 2

/-- `ADVANCE_BUFFER_SECS = 0`, src/karaqueue/common.py line 35 (seconds). -/
def ADVANCE_BUFFER_SECS : Int := 0

/-- `LoadResult`, src/karaqueue/common.py lines 44-50: results from loading a
video, with the Python dataclass defaults. -/
structure LoadResult where
  video_path : String := ""
  audio_path : String := ""
  width : Nat := 0
  height : Nat := 0
deriving DecidableEq, Repr

/-- `Entry`, src/karaqueue/common.py lines 56-76. The `load_fns` field (a list
of Python coroutines) is represented by the outcomes the environment assigns to
each of them; the `queue` back-reference is represented by passing the owning
queue's `global_offset_ms` to the processing functions. `_process_task_cancel`
is an `asyncio.Event` owned by the in-flight task: the Boolean
`hasProcessTaskCancel` records whether the field is non-`None`, i.e. whether an
in-flight processing task exists. `player_monitor_task` is likewise reduced to
whether it is non-`None`. -/
structure EntryState where
  path : String
  title : String
  original_url : String
  user_id : Nat
  pitch_shift : Int
  offset_ms : Int
  processed : Bool := false
  hasProcessTaskCancel : Bool := false
  load_msg : String := ""
  error_msg : String := ""
  loadResult : Option LoadResult := none
  processedPath : String := ""
  hasPlayerMonitorTask : Bool := false
deriving DecidableEq, Repr

/-- `Queue`, src/karaqueue/common.py lines 237-249, with the Python dataclass
defaults. The `lock` class attribute is modelled separately (see
`queueClassLockId`). `next_advance_time` is a timestamp in seconds (`Option`
mirrors the `Optional[datetime.datetime]` field); `msg_id` is the id of the
previously posted status message. -/
structure QueueState where
  guild_id : Nat
  channel_id : Nat
  msg_id : Option Nat := none
  current : Option EntryState := none
  queue : List EntryState := []
  global_offset_ms : Int := 0
  localMode : Bool := false
  next_advance_time : Option Int := none
deriving DecidableEq, Repr

/-- Modelled from the spec: the Queue's "per-user concurrent-entry limit"
(spec §3). `_load` in src/main.py line 186 reads `q.per_user_limit`, but the
`Queue` dataclass in src/karaqueue/common.py declares no such field; the spec
names the configured default `MAX_QUEUED_PER_USER`. -/
def defaultPerUserLimit : Nat := MAX_QUEUED_PER_USER

/-- `os.path.join(a, b)` for a relative posix component `b`, as used throughout
src/karaqueue/common.py. -/
def joinPath (a b : String) : String := a ++ "/" ++ b

/-- `os.path.basename` for posix-style paths, as used in src/main.py line 415. -/
def basename (p : String) : String := (p.splitOn "/").getLastD p

/-- `os.path.relpath(path, start)` followed by `pathlib.Path(...).as_posix()`
(src/karaqueue/common.py lines 123-124), restricted to the shapes that occur:
entry working directories are created by `tempfile.mkdtemp(dir=SERVING_DIR)`
(src/main.py line 194), hence always lie directly under the serving root. -/
def relPosixUnder (path start : String) : String :=
  let s := start ++ "/"
  if path.take s.length = s then path.drop s.length else path

/-- `Entry._get_server_path`, src/karaqueue/common.py lines 121-125, with the
configured `HOST` and `SERVING_DIR` passed explicitly. -/
def getServerPath (host servingDir path : String) : String :=
  "https://" ++ host ++ "/" ++ relPosixUnder path servingDir

/-- The eight iterations of `random.choice(string.ascii_letters)` in
src/karaqueue/common.py line 132; `pick` resolves each random choice. -/
def randToken (pick : Nat → Char) : String :=
  ((List.range 8).map pick).asString

/-- `Entry.url`, src/karaqueue/common.py lines 127-132: raises `RuntimeError`
when not processed, otherwise returns the server path of the entry's working
directory followed by a `?` and the eight random letters. -/
def urlFn (host servingDir : String) (pick : Nat → Char) (e : EntryState) :
    Except String String :=
  if !e.processed then Except.error "task has not been processed!"
  else Except.ok (getServerPath host servingDir e.path ++ "?" ++ randToken pick)

/-- `Entry.video_path`, src/karaqueue/common.py lines 134-138. -/
def videoPathFn (e : EntryState) : Except String String :=
  if !e.processed then Except.error "task has not been processed!"
  else Except.ok e.processedPath

/-- Zero-pad to two digits, as in Python `datetime.timedelta.__str__`. -/
def pad2 (n : Nat) : String := if n < 10 then "0" ++ toString n else toString n

/-- Zero-pad to six digits, as in Python `datetime.timedelta.__str__`. -/
def pad6 (n : Nat) : String :=
  let s := toString n
  (List.replicate (6 - s.length) '0').asString ++ s

/-- `str(datetime.timedelta(milliseconds=ms))` for a nonnegative integer number
of milliseconds, as interpolated into the negative-offset branch of
src/karaqueue/common.py lines 203-205. -/
def timedeltaStr (ms : Nat) : String :=
  let micro := ms % 1000 * 1000
  let totalSecs := ms / 1000
  let days := totalSecs / 86400
  let rem := totalSecs % 86400
  let base := toString (rem / 3600) ++ ":" ++ pad2 (rem % 3600 / 60) ++ ":" ++ pad2 (rem % 60)
  let base := if micro = 0 then base else base ++ "." ++ pad6 micro
  if days = 0 then base
  else toString days ++ (if days = 1 then " day, " else " days, ") ++ base

/-- The `input_flags` computation of `Entry._process_load_result`,
src/karaqueue/common.py lines 195-205: a three-way branch on the effective
offset already summed by the caller. -/
def inputFlags (videoPath audioPath : String) (offsetMs : Int) : String :=
  if offsetMs = 0 then
    "-i \"" ++ videoPath ++ "\" -i \"" ++ audioPath ++ "\" -c:v copy -c:a copy " ++
      "-map 0:v:0 -map 1:a:0"
  else if 0 < offsetMs then
    "-i \"" ++ videoPath ++ "\" -i \"" ++ audioPath ++ "\" -c:v copy -c:a mp3 " ++
      "-af \"adelay=" ++ toString offsetMs ++ "|" ++ toString offsetMs ++
      "\" -map 0:v:0 -map 1:a:0"
  else
    "-i \"" ++ audioPath ++ "\" -itsoffset " ++ timedeltaStr (-offsetMs).toNat ++
      " -i \"" ++ videoPath ++ "\" -c:a copy -c:v copy -map 1:v:0 -map 0:a:0"

/-- The three muxing strategies of src/karaqueue/common.py lines 196-205,
named: which syntactic branch of the `if`/`elif`/`else` chain is taken for a
given effective offset. -/
inductive MuxStrategy
  | streamCopyBoth
  | adelayReencodeAudio
  | itsoffsetVideo
deriving DecidableEq, Repr

/-- Which branch of src/karaqueue/common.py lines 196-205 runs, as a function
of the effective offset `entry.offset_ms + queue.global_offset_ms`. -/
def muxStrategy (offsetMs : Int) : MuxStrategy :=
  if offsetMs = 0 then .streamCopyBoth
  else if 0 < offsetMs then .adelayReencodeAudio
  else .itsoffsetVideo

/-- Outcome the environment assigns to one `load_fn` invocation inside
`Entry._process` (src/karaqueue/common.py lines 144-152): the coroutine either
returns a `LoadResult`, raises `asyncio.CancelledError` (re-raised by the
pipeline), or raises some other exception with message `msg` (caught by the
pipeline). -/
inductive LoadOutcome
  | ok (r : LoadResult)
  | cancelled
  | failure (msg : String)
deriving DecidableEq, Repr

/-- The Python exceptions that can escape the processing pipeline:
`asyncio.CancelledError`, and `subprocess.CalledProcessError` raised by
`utils.call` (src/karaqueue/utils.py lines 25-31) on a non-zero exit of the
named binary. -/
inductive PyExc
  | cancelledError
  | calledProcessError (binary : String)
deriving DecidableEq, Repr

/-- Environment resolving every external interaction of one run of
`Entry._process` (src/karaqueue/common.py lines 140-234): the outcome of each
load function in order, whether any cancellation event is set at each of the
pipeline's cancellation checkpoints, the result of the `ffprobe` dimension
probe (`none` = non-zero exit), whether the `sox` pitch shift, the `ffmpeg`
mux, and the `ffmpeg` thumbnail extraction exit zero, whether `thumb.jpg`
already exists, and the name `tempfile.mktemp` returns for the output file. -/
structure PipeEnv where
  loads : List LoadOutcome := []
  cancelAfterLoad : Bool := false
  probe : Option (Nat × Nat) := none
  soxOk : Bool := true
  cancelAfterShift : Bool := false
  ffmpegMuxOk : Bool := true
  cancelAfterMux : Bool := false
  thumbExists : Bool := true
  ffmpegThumbOk : Bool := true
  tmpName : String := "tmp0000.mp4"
deriving DecidableEq, Repr

/-- How the load loop of `Entry._process` (src/karaqueue/common.py lines
144-160) ended. -/
inductive LoadsStatus
  | allOk
  | stoppedCancelled
  | stoppedFailed (msg : String)
deriving DecidableEq, Repr

/-- The merge of one `load_fn` result into `self._load_result`,
src/karaqueue/common.py lines 153-160: each non-empty / non-zero field of the
new result overwrites the accumulator. -/
def mergeLoadResult (acc r : LoadResult) : LoadResult :=
  let acc := if r.video_path ≠ "" then { acc with video_path := r.video_path } else acc
  let acc := if r.audio_path ≠ "" then { acc with audio_path := r.audio_path } else acc
  let acc := if r.width ≠ 0 then { acc with width := r.width } else acc
  if r.height ≠ 0 then { acc with height := r.height } else acc

/-- The `for load_fn in self.load_fns` loop of `Entry._process`
(src/karaqueue/common.py lines 144-160) starting from accumulator `acc`:
returns the accumulated `LoadResult`, how the loop ended, and how many load
functions were invoked. -/
def runLoads : LoadResult → List LoadOutcome → LoadResult × LoadsStatus × Nat
  | acc, [] => (acc, .allOk, 0)
  | acc, o :: rest =>
    match o with
    | .cancelled => (acc, .stoppedCancelled, 1)
    | .failure m => (acc, .stoppedFailed m, 1)
    | .ok r =>
      let res := runLoads (mergeLoadResult acc r) rest
      (res.1, res.2.1, res.2.2 + 1)

/-- Result of one run of `Entry._process` wrapped by `create_process_task`:
the updated entry, the exception that escaped (`none` = returned normally),
the number of load functions invoked, and the `input_flags` string passed to
the `ffmpeg` mux call when that call was reached. -/
structure ProcResult where
  entry : EntryState
  exc : Option PyExc := none
  loadsInvoked : Nat := 0
  muxFlags : Option String := none
deriving DecidableEq, Repr

/-- `Entry._process_load_result`, src/karaqueue/common.py lines 176-234, run
with `queue.global_offset_ms = globalOffsetMs` and `self._load_result = some r`
(both guaranteed by the caller, matching the two `ValueError` guards at lines
177-180). Follows the source order: optional `sox` pitch shift (after setting
`load_msg`), cancellation check, `input_flags` from the effective offset,
`load_msg` update and `tempfile.mktemp` assignment to `_processed_path`,
`ffmpeg` mux call, cancellation check, conditional `ffmpeg` thumbnail call.
The final `index.html` write (lines 220-234) has no effect on the modelled
state. -/
def processLoadResult (globalOffsetMs : Int) (e : EntryState) (r : LoadResult)
    (env : PipeEnv) : EntryState × Option PyExc × Option String :=
  let audioPath := joinPath e.path r.audio_path
  if e.pitch_shift ≠ 0 ∧ env.soxOk = false then
    ({ e with load_msg := "Loading video `" ++ e.title ++ "`...\nShifting pitch..." },
     some (PyExc.calledProcessError "sox"), none)
  else
    let audioPath := if e.pitch_shift ≠ 0 then joinPath e.path "shifted.mp3" else audioPath
    let e := if e.pitch_shift ≠ 0 then
        { e with load_msg := "Loading video `" ++ e.title ++ "`...\nShifting pitch..." }
      else e
    if env.cancelAfterShift then (e, some PyExc.cancelledError, none)
    else
      let videoPath := joinPath e.path r.video_path
      let offsetMs := e.offset_ms + globalOffsetMs
      let flags := inputFlags videoPath audioPath offsetMs
      let e := { e with
        load_msg := "Loading video `" ++ e.title ++ "`...\nCreating video...",
        processedPath := joinPath e.path env.tmpName }
      if env.ffmpegMuxOk = false then (e, some (PyExc.calledProcessError "ffmpeg"), some flags)
      else if env.cancelAfterMux then (e, some PyExc.cancelledError, some flags)
      else if env.thumbExists = false ∧ env.ffmpegThumbOk = false then
        (e, some (PyExc.calledProcessError "ffmpeg"), some flags)
      else (e, none, some flags)

/-- The tail of `Entry._process` (src/karaqueue/common.py lines 162-174) once
`self._load_result = some r` holds: the cancellation check after loading, the
`ffprobe` dimension probe when width or height is zero, then
`_process_load_result` (inlined here at the `asyncio.to_thread` call).
`n` is the number of load functions invoked by the prefix of the run. -/
def entryProcessCont (globalOffsetMs : Int) (e : EntryState) (r : LoadResult)
    (env : PipeEnv) (n : Nat) : ProcResult :=
  if env.cancelAfterLoad then
    { entry := e, exc := some PyExc.cancelledError, loadsInvoked := n }
  else if r.width = 0 ∨ r.height = 0 then
    match env.probe with
    | none =>
      { entry := e, exc := some (PyExc.calledProcessError "ffprobe"), loadsInvoked := n }
    | some (w, h) =>
      let r := { r with width := w, height := h }
      let e := { e with loadResult := some r }
      let res := processLoadResult globalOffsetMs e r env
      { entry := res.1, exc := res.2.1, loadsInvoked := n, muxFlags := res.2.2 }
  else
    let res := processLoadResult globalOffsetMs e r env
    { entry := res.1, exc := res.2.1, loadsInvoked := n, muxFlags := res.2.2 }

/-- `Entry._process`, src/karaqueue/common.py lines 140-174: when
`_load_result` is `None` it is initialised to `LoadResult()` and the load
functions run in order — a hard error is caught, recorded as
`error_msg = 'Error: ...'`, and makes `_process` return normally, while a
cancellation re-raises; in every ending of the loop the partially merged
`_load_result` remains assigned. When `_load_result` is already populated the
load functions are skipped entirely. -/
def entryProcess (globalOffsetMs : Int) (e : EntryState) (env : PipeEnv) : ProcResult :=
  match e.loadResult with
  | some r => entryProcessCont globalOffsetMs e r env 0
  | none =>
    let res := runLoads {} env.loads
    let acc := res.1
    let e2 := { e with loadResult := some acc }
    match res.2.1 with
    | .stoppedCancelled =>
      { entry := e2, exc := some PyExc.cancelledError, loadsInvoked := res.2.2 }
    | .stoppedFailed m =>
      { entry := { e2 with error_msg := "Error: " ++ m }, exc := none,
        loadsInvoked := res.2.2 }
    | .allOk => entryProcessCont globalOffsetMs e2 acc env res.2.2

/-- `Entry._reset`, src/karaqueue/common.py lines 107-114: sets the in-flight
task's cancel event when one exists and drops the reference, cancels the
player monitor task when one exists, and clears `processed`. Returns the new
state together with whether a processing task's cancel event was fired and
whether a player monitor task was cancelled. -/
def resetEntry (e : EntryState) : EntryState × Bool × Bool :=
  ({ e with hasProcessTaskCancel := false, hasPlayerMonitorTask := false,
            processed := false },
   e.hasProcessTaskCancel, e.hasPlayerMonitorTask)

/-- `Entry.onchange_locked`, src/karaqueue/common.py lines 86-90: `_reset()`
then clear `load_msg` and `error_msg`. Same return convention as
`resetEntry`. -/
def onchangeLocked (e : EntryState) : EntryState × Bool × Bool :=
  let res := resetEntry e
  ({ res.1 with load_msg := "", error_msg := "" }, res.2)

/-- `Entry.delete`, src/karaqueue/common.py lines 116-119: `_reset()` then set
`error_msg = 'Cancelled'`. Performs no filesystem operation. -/
def deleteEntry (e : EntryState) : EntryState × Bool × Bool :=
  let res := resetEntry e
  ({ res.1 with error_msg := "Cancelled" }, res.2)

/-- `Entry.create_process_task` and its inner `process` coroutine,
src/karaqueue/common.py lines 92-105, run to completion: `_reset()`, install a
fresh cancel event, run `_process`, and — whenever `_process` returns without
raising — set `processed = True`. -/
def createProcessTaskRun (globalOffsetMs : Int) (e : EntryState) (env : PipeEnv) :
    ProcResult :=
  let e0 := (resetEntry e).1
  let e0 := { e0 with hasProcessTaskCancel := true }
  let res := entryProcess globalOffsetMs e0 env
  match res.exc with
  | none => { res with entry := { res.entry with processed := true } }
  | some _ => res

/-- The exception handling of the `background_process` loop body, src/main.py
lines 625-628: `await entry_to_process.create_process_task(...)` is wrapped in
`try ... except asyncio.CancelledError: pass`, so the `while True` loop
survives an iteration exactly when the pipeline raised nothing or raised
`asyncio.CancelledError`; any other exception propagates and terminates the
loop. -/
def loopSurvives : Option PyExc → Bool
  | none => true
  | some PyExc.cancelledError => true
  | some (PyExc.calledProcessError _) => false

/-- The inner `for entry in q` scan of `background_process` (src/main.py lines
616-619): the first pending entry, in queue order, with `processed` false. -/
def firstUnprocessed (l : List EntryState) : Option EntryState :=
  l.find? (fun en => !en.processed)

/-- The per-queue candidate choice of `background_process` (src/main.py lines
612-619): `q.current` when it exists and is unprocessed, otherwise the first
unprocessed pending entry. -/
def queueCandidate (q : QueueState) : Option EntryState :=
  match q.current with
  | some c => if !c.processed then some c else firstUnprocessed q.queue
  | none => firstUnprocessed q.queue

/-- The work selection of `background_process` (src/main.py lines 610-621):
scan the registered queues in registry iteration order (insertion order of the
`dict`, modelled as a list) and take the first queue's candidate. -/
def selectEntry (qs : List QueueState) : Option EntryState :=
  qs.findSome? queueCandidate

/-- Why `_load` rejected an append, src/main.py lines 181-191. -/
inductive LoadReject
  | queueFull
  | perUserLimit
deriving DecidableEq, Repr

/-- `sum(entry.user_id == user.id for entry in q)` from src/main.py line 186:
the number of pending entries belonging to the user. -/
def userCount (q : QueueState) (uid : Nat) : Nat :=
  (q.queue.filter (fun en => en.user_id = uid)).length

/-- The admission control and append of `_load`, src/main.py lines 181-191 and
230: reject with an unchanged queue when `len(q) >= MAX_QUEUED` (pending
entries only — `Queue.__len__` at src/karaqueue/common.py lines 251-252 counts
`self.queue`, not `current`); otherwise reject with an unchanged queue when the
user is not the dev user and already owns `per_user_limit` pending entries;
otherwise append the entry at the tail. -/
def loadAppend (perUserLimit : Nat) (q : QueueState) (isDev : Bool) (e : EntryState) :
    QueueState × Option LoadReject :=
  if MAX_QUEUED ≤ q.queue.length then (q, some LoadReject.queueFull)
  else if isDev = false ∧ perUserLimit ≤ userCount q e.user_id then
    (q, some LoadReject.perUserLimit)
  else ({ q with queue := q.queue ++ [e] }, none)

/-- The deletion loop of `DeleteConfirmView.delete_callback` (src/main.py lines
466-471): scan the pending list in order, and at the first element equal to the
chosen entry call `q[i].delete()` and `del q[i]`, then break. Returns the new
list and the removed element when one was found. -/
def deleteFirstMatch : List EntryState → EntryState → Option (List EntryState × EntryState)
  | [], _ => none
  | x :: rest, en =>
    if x = en then some (rest, x)
    else
      match deleteFirstMatch rest en with
      | none => none
      | some p => some (x :: p.1, p.2)

/-- Outcome of the confirmed deletion: the set of working directories existing
on disk (threaded unchanged — no statement of the source removes one), the new
queue, whether an element was removed, and whether the removed entry had an
in-flight processing task whose cancel event got fired by `Entry.delete`. -/
structure DeleteOutcome where
  fs : List String
  q : QueueState
  removed : Bool
  cancelFired : Bool
deriving DecidableEq, Repr

/-- The confirmed `/delete`: `DeleteConfirmView.delete_callback` (src/main.py
lines 463-474) composed with `Entry.delete` (src/karaqueue/common.py lines
116-119). `fs` is the list of working directories currently existing on disk;
neither function performs any filesystem operation, so it passes through
unchanged. -/
def deleteConfirm (fs : List String) (q : QueueState) (entry : EntryState) :
    DeleteOutcome :=
  match deleteFirstMatch q.queue entry with
  | none => { fs := fs, q := q, removed := false, cancelFired := false }
  | some p =>
    { fs := fs, q := { q with queue := p.1 }, removed := true,
      cancelFired := (deleteEntry p.2).2.1 }

/-- The index guard of `_delete`, src/main.py lines 452-455: an index is valid
when `1 ≤ index ≤ len(q)`, and the entry offered for confirmation is
`q[index-1]`. -/
def deleteIndexPick (q : QueueState) (index : Nat) : Option EntryState :=
  if index < 1 ∨ q.queue.length < index then none
  else q.queue.get? (index - 1)

/-- The user-visible responses of `_next_locked`, src/main.py lines 340-361,
reduced to which message is sent. -/
inductive NextMsg
  | debounce
  | noSongs
deriving DecidableEq, Repr

/-- Result of `_next_locked`: the updated queue, the message sent (if any),
and whether a pending entry was promoted to `current`. -/
structure NextResult where
  q : QueueState
  msg : Option NextMsg := none
  advanced : Bool := false
deriving DecidableEq, Repr

/-- The body of `_next_locked` past the debounce guard, src/main.py lines
350-361: stamp `next_advance_time = now + ADVANCE_BUFFER_SECS`, delete and
clear `current` when set, then either report an empty queue or promote
`q.pop(0)` to `current`. -/
def nextLockedGo (now : Int) (q : QueueState) : NextResult :=
  let q := { q with next_advance_time := some (now + ADVANCE_BUFFER_SECS) }
  let q :=
    match q.current with
    | some _ => { q with current := none }
    | none => q
  match q.queue with
  | [] => { q := q, msg := some NextMsg.noSongs }
  | e :: rest =>
    { q := { q with current := some e, queue := rest }, advanced := true }

/-- `_next_locked`, src/main.py lines 340-361: when `next_advance_time` lies in
the future the call is a no-op that sends the debounce message only for a
user-initiated next (`is_user_action`); otherwise the queue advances. Time is
in seconds. -/
def nextLocked (now : Int) (isUserAction : Bool) (q : QueueState) : NextResult :=
  match q.next_advance_time with
  | some t =>
    if now < t then
      { q := q, msg := if isUserAction then some NextMsg.debounce else none }
    else nextLockedGo now q
  | none => nextLockedGo now q

/-- `PlayerStatus`, src/karaqueue/common.py lines 335-340: current position and
total duration in milliseconds. -/
structure PlayerStatus where
  position : Int
  duration : Int
deriving DecidableEq, Repr

/-- Modelled from the spec: the Player capability returns
`{position_ms, duration_ms, filename} | none` (spec §6). `monitor_player` in
src/main.py line 415 reads `status.filename`, but the `PlayerStatus`
declaration in src/karaqueue/common.py lines 335-340 lacks that field, so the
full status record the player reports is modelled here from the spec's words. -/
structure FullPlayerStatus extends PlayerStatus where
  filename : String
deriving DecidableEq, Repr

/-- What one iteration of the `monitor_player` loop does, src/main.py lines
405-428. -/
inductive MonitorOutcome
  | raisedCancelled
  | advanceQueue
  | stopSongChanged
  | continueLoop (playbackStarted : Bool)
deriving DecidableEq, Repr

/-- One iteration of the `while True` loop of `monitor_player`, src/main.py
lines 405-428: raise `CancelledError` when the global cancel is set; a status
call that raises is swallowed and the loop continues; with no status the loop
continues; when the reported filename equals the expected basename and playback
was already observed mid-file and the position equals the duration or is zero,
schedule `_next(ctx, is_user_action=False)` and return; otherwise record
whether playback is now mid-file and continue; on a filename mismatch return
silently when playback had started, else continue. -/
def monitorStep (expected : String) (playbackStarted : Bool)
    (globalCancelSet statusCallRaises : Bool) (status : Option FullPlayerStatus) :
    MonitorOutcome :=
  if globalCancelSet then .raisedCancelled
  else if statusCallRaises then .continueLoop playbackStarted
  else
    match status with
    | none => .continueLoop playbackStarted
    | some st =>
      if st.filename = expected then
        if playbackStarted ∧ (st.position = st.duration ∨ st.position = 0) then
          .advanceQueue
        else
          .continueLoop
            (playbackStarted || (decide (0 < st.position) && decide (st.position < st.duration)))
      else if playbackStarted then .stopSongChanged
      else .continueLoop playbackStarted

/-- In src/karaqueue/common.py line 245 the `Queue` dataclass body contains
`lock = asyncio.Lock()` without a type annotation. Python dataclasses turn only
annotated names into instance fields, so `lock` is a plain class attribute: the
`asyncio.Lock()` expression is evaluated exactly once, when the `class`
statement executes, and every attribute lookup `q.lock` on every instance
resolves to that single object. The one allocation is modelled by a single lock
identity. -/
def queueClassLockId : Nat := 0

/-- The object `q.lock` resolves to for a `Queue` instance `q`: the class
attribute, since `Queue.__init__` (generated from the annotated fields only)
never assigns an instance attribute named `lock`. -/
def queueLock (_q : QueueState) : Nat := queueClassLockId

/-- `asyncio.Lock` acquisition: an acquire on lock `l` proceeds without
blocking exactly when `l` is not currently held. -/
def canAcquire (held : Nat → Bool) (l : Nat) : Bool := !held l

/-- `get_queue`, src/karaqueue/common.py lines 301-310, with the configured
`ALLOWED_GUILDIDS` passed explicitly and the registry `dict` (line 288)
modelled as an insertion-ordered association list: raise for a guild not on the
allow-list, otherwise lazily insert `Queue(guild_id, channel_id)` and return
the registry together with the queue stored under the key. -/
def getQueue (allowed : List Nat) (reg : List ((Nat × Nat) × QueueState))
    (gid cid : Nat) : Except String (List ((Nat × Nat) × QueueState) × QueueState) :=
  if gid ∉ allowed then Except.error "This server is not allowed to use this bot."
  else
    match reg.lookup (gid, cid) with
    | some q => Except.ok (reg, q)
    | none =>
      let q : QueueState := { guild_id := gid, channel_id := cid }
      Except.ok (reg ++ [((gid, cid), q)], q)

instance {ε α : Type} [DecidableEq ε] [DecidableEq α] : DecidableEq (Except ε α) :=
  fun a b =>
    match a, b with
    | Except.ok x, Except.ok y =>
      if h : x = y then isTrue (congrArg Except.ok h)
      else isFalse (fun hh => h (Except.ok.inj hh))
    | Except.error x, Except.error y =>
      if h : x = y then isTrue (congrArg Except.error h)
      else isFalse (fun hh => h (Except.error.inj hh))
    | Except.ok _, Except.error _ => isFalse (fun hh => Except.noConfusion hh)
    | Except.error _, Except.ok _ => isFalse (fun hh => Except.noConfusion hh)

/-- An entry whose raw media is already cached, about to be muxed. -/
def c1Entry : EntryState :=
  { path := "serve/e1", title := "Song A", original_url := "https://youtu.be/x",
    user_id := 1, pitch_shift := 0, offset_ms := 0,
    loadResult := some { video_path := "v.mp4", audio_path := "a.mp3",
                         width := 640, height := 480 } }

/-- An environment in which the `ffmpeg` mux invocation exits non-zero. -/
def c1Env : PipeEnv := { ffmpegMuxOk := false }

/-- C1: the claim fails on the code. When the external transcode exits
non-zero, `utils.call` raises `subprocess.CalledProcessError`; `Entry._process`
catches exceptions only around the load functions (src/karaqueue/common.py
lines 145-152), so the error escapes the pipeline with `error_msg` left empty,
and the `background_process` loop (src/main.py lines 625-628) catches only
`asyncio.CancelledError`, so the loop terminates instead of continuing. -/
theorem c1_transcode_error_kills_loop :
    (createProcessTaskRun 0 c1Entry c1Env).exc = some (PyExc.calledProcessError "ffmpeg") ∧
    (createProcessTaskRun 0 c1Entry c1Env).entry.error_msg = "" ∧
    loopSurvives (createProcessTaskRun 0 c1Entry c1Env).exc = false := by
  decide

/-- A fresh entry whose only load function fails with a hard error. -/
def c2Entry : EntryState :=
  { path := "serve/e2", title := "Song B", original_url := "https://youtu.be/y",
    user_id := 1, pitch_shift := 0, offset_ms := 0 }

/-- An environment in which the single load function raises a hard error. -/
def c2Env : PipeEnv := { loads := [LoadOutcome.failure "403 Forbidden"] }

/-- C2: the claim fails on the code. A hard load error makes `Entry._process`
record `error_msg` and return normally (src/karaqueue/common.py lines 149-152),
after which the `process` wrapper of `create_process_task` (lines 99-103)
unconditionally sets `processed = True`: the entry does not remain unprocessed. -/
theorem c2_load_error_still_marks_processed :
    (createProcessTaskRun 0 c2Entry c2Env).entry.error_msg = "Error: 403 Forbidden" ∧
    (createProcessTaskRun 0 c2Entry c2Env).entry.processed = true := by
  decide

/-- A processed entry with no pitch shift and no offset, from a directly
embeddable source URL. -/
def c3Entry : EntryState :=
  { path := "serve/abc123", title := "t",
    original_url := "https://www.youtube.com/watch?v=q",
    user_id := 1, pitch_shift := 0, offset_ms := 0, processed := true }

/-- C3 counterexample: an entry with `pitch_shift = 0`, `offset_ms = 0` and an
embeddable original URL, yet `url()` does not return the original source URL —
src/karaqueue/common.py lines 127-132 have no original-URL branch. -/
theorem c3_counterexample :
    c3Entry.processed = true ∧ c3Entry.pitch_shift = 0 ∧ c3Entry.offset_ms = 0 ∧
    urlFn "example.com" "serve" (fun _ => 'a') c3Entry ≠
      Except.ok c3Entry.original_url := by
  decide

/-- C3 (amended): `url()` raises whenever `processed` is false; once
`processed` is true it always returns the server URL of the entry's working
directory suffixed with `?` and an 8-character random token, regardless of
pitch shift, offset, or the source URL. -/
theorem c3_url_contract_amended (host servingDir : String) (pick : Nat → Char)
    (e : EntryState) :
    (e.processed = false →
      urlFn host servingDir pick e = Except.error "task has not been processed!") ∧
    (e.processed = true →
      urlFn host servingDir pick e =
        Except.ok (getServerPath host servingDir e.path ++ "?" ++ randToken pick) ∧
      (randToken pick).length = 8) := by
  constructor
  · intro h
    simp [urlFn, h]
  · intro h
    refine ⟨by simp [urlFn, h], ?_⟩
    rfl

/-- Witness for `c3_url_contract_amended` at a concrete unprocessed and a
concrete processed entry. -/
theorem c3_url_contract_amended_witness :
    urlFn "example.com" "serve" (fun _ => 'a') { c3Entry with processed := false } =
      Except.error "task has not been processed!" ∧
    urlFn "example.com" "serve" (fun _ => 'a') c3Entry =
      Except.ok (getServerPath "example.com" "serve" c3Entry.path ++ "?" ++
        randToken (fun _ => 'a')) := by
  refine ⟨(c3_url_contract_amended "example.com" "serve" (fun _ => 'a')
    { c3Entry with processed := false }).1 rfl, ?_⟩
  exact ((c3_url_contract_amended "example.com" "serve" (fun _ => 'a') c3Entry).2 rfl).1

/-- A pending entry used to populate the C4 queue. -/
def c4Base : EntryState :=
  { path := "p", title := "t", original_url := "u", user_id := 1,
    pitch_shift := 0, offset_ms := 0 }

/-- A queue holding `MAX_QUEUED` entries counting pending plus current: 19
pending entries and a current one. -/
def c4Queue : QueueState :=
  { guild_id := 1, channel_id := 2, current := some c4Base,
    queue := List.replicate 19 c4Base }

/-- A fresh entry from a different user. -/
def c4New : EntryState := { c4Base with user_id := 99, path := "p2" }

/-- C4 counterexample: a queue that already holds the configured maximum of
entries counting pending plus current (19 pending + 1 current = `MAX_QUEUED`),
yet the append succeeds and mutates the queue — `_load` (src/main.py line 181)
compares `len(q)`, which counts pending entries only, so the total reaches
`MAX_QUEUED + 1`. -/
theorem c4_counterexample :
    c4Queue.queue.length + (if c4Queue.current.isSome then 1 else 0) = MAX_QUEUED ∧
    (loadAppend defaultPerUserLimit c4Queue false c4New).2 = none ∧
    (loadAppend defaultPerUserLimit c4Queue false c4New).1 ≠ c4Queue ∧
    (loadAppend defaultPerUserLimit c4Queue false c4New).1.queue.length +
      (if (loadAppend defaultPerUserLimit c4Queue false c4New).1.current.isSome
       then 1 else 0) = MAX_QUEUED + 1 := by
  decide

/-- C4 (amended): `_load`'s admission control counts pending entries only.
Appending to a queue whose pending list already holds `MAX_QUEUED` entries
fails and leaves the queue unchanged; appending for a non-dev user who already
has `per_user_limit` pending entries fails and leaves the queue unchanged; an
append for a user below the per-user limit succeeds (appending at the tail)
while the pending list is below the shared cap; hence the number of pending
entries never exceeds `MAX_QUEUED` — but pending plus current can reach
`MAX_QUEUED + 1`. -/
theorem c4_append_limits_amended (limit : Nat) (q : QueueState) (isDev : Bool)
    (e e2 : EntryState) :
    (MAX_QUEUED ≤ q.queue.length →
      loadAppend limit q isDev e = (q, some LoadReject.queueFull)) ∧
    (q.queue.length < MAX_QUEUED → isDev = false → limit ≤ userCount q e.user_id →
      loadAppend limit q false e = (q, some LoadReject.perUserLimit)) ∧
    (q.queue.length < MAX_QUEUED → userCount q e2.user_id < limit →
      loadAppend limit q isDev e2 = ({ q with queue := q.queue ++ [e2] }, none)) ∧
    (q.queue.length ≤ MAX_QUEUED →
      (loadAppend limit q isDev e).1.queue.length ≤ MAX_QUEUED) := by
  refine ⟨?_, ?_, ?_, ?_⟩
  · intro h
    simp [loadAppend, h]
  · intro h1 h2 h3
    simp [loadAppend, Nat.not_le.mpr h1, h3]
  · intro h1 h2
    simp [loadAppend, Nat.not_le.mpr h1, Nat.not_le.mpr h2]
  · intro h
    by_cases hfull : MAX_QUEUED ≤ q.queue.length
    · simpa [loadAppend, hfull] using h
    · have hlt : q.queue.length < MAX_QUEUED := Nat.not_le.mp hfull
      by_cases huser : isDev = false ∧ limit ≤ userCount q e.user_id
      · simp [loadAppend, hfull, huser]
        omega
      · simp [loadAppend, hfull, huser]
        omega

/-- Witness for `c4_append_limits_amended`: the full-queue rejection, the
per-user rejection, and the different-user success, discharged at concrete
queues. -/
theorem c4_append_limits_amended_witness :
    loadAppend defaultPerUserLimit { c4Queue with queue := List.replicate 20 c4Base }
      false c4New =
      ({ c4Queue with queue := List.replicate 20 c4Base }, some LoadReject.queueFull) ∧
    loadAppend defaultPerUserLimit { c4Queue with queue := [c4Base, c4Base] } false c4Base =
      ({ c4Queue with queue := [c4Base, c4Base] }, some LoadReject.perUserLimit) ∧
    loadAppend defaultPerUserLimit { c4Queue with queue := [c4Base, c4Base] } false c4New =
      ({ c4Queue with queue := [c4Base, c4Base] ++ [c4New] }, none) := by
  refine ⟨?_, ?_, ?_⟩
  · exact (c4_append_limits_amended defaultPerUserLimit
      { c4Queue with queue := List.replicate 20 c4Base } false c4New c4New).1 (by decide)
  · exact (c4_append_limits_amended defaultPerUserLimit
      { c4Queue with queue := [c4Base, c4Base] } false c4Base c4Base).2.1
      (by decide) rfl (by decide)
  · exact (c4_append_limits_amended defaultPerUserLimit
      { c4Queue with queue := [c4Base, c4Base] } false c4Base c4New).2.2.1
      (by decide) (by decide)

/-- The mux flags the pipeline passes to `ffmpeg` are built from the effective
offset `entry.offset_ms + queue.global_offset_ms` whenever the mux step is
reached without cancellation (here: cached media with known dimensions and no
pitch shift). -/
theorem entryProcess_muxFlags (g : Int) (e : EntryState) (r : LoadResult)
    (env : PipeEnv) (hres : e.loadResult = some r) (hw : r.width ≠ 0)
    (hh : r.height ≠ 0) (hc1 : env.cancelAfterLoad = false)
    (hc2 : env.cancelAfterShift = false) (hp : e.pitch_shift = 0) :
    (entryProcess g e env).muxFlags =
      some (inputFlags (joinPath e.path r.video_path) (joinPath e.path r.audio_path)
        (e.offset_ms + g)) := by
  simp only [entryProcess, hres]
  simp only [entryProcessCont, hc1, Bool.false_eq_true, if_false, hw, hh, or_self,
    if_neg (by simp [hw, hh] : ¬(r.width = 0 ∨ r.height = 0))]
  simp [processLoadResult, hp, hc2]
  split_ifs <;> rfl

/-- C5: the mux strategy is selected purely from the effective offset
`entry.offset_ms + queue.global_offset_ms` (two entry/global pairs with equal
sums produce identical `ffmpeg` flags); effective offset exactly zero yields
the direct stream copy of both streams mapping video stream 0 and audio
stream 0, strictly positive yields the `adelay` audio filter with the audio
re-encoded to mp3 and the video copied, and strictly negative yields
`-itsoffset` placed before the video input with both streams copied; and the
flags the pipeline hands to the `ffmpeg` mux call are exactly
`inputFlags` of the effective offset. -/
theorem c5_mux_strategy_selection (v a : String) (eo go eo2 go2 : Int)
    (hsum : eo + go = eo2 + go2) :
    (inputFlags v a (eo + go) = inputFlags v a (eo2 + go2) ∧
      muxStrategy (eo + go) = muxStrategy (eo2 + go2)) ∧
    (eo + go = 0 →
      muxStrategy (eo + go) = MuxStrategy.streamCopyBoth ∧
      inputFlags v a (eo + go) =
        "-i \"" ++ v ++ "\" -i \"" ++ a ++ "\" -c:v copy -c:a copy " ++
          "-map 0:v:0 -map 1:a:0") ∧
    (0 < eo + go →
      muxStrategy (eo + go) = MuxStrategy.adelayReencodeAudio ∧
      inputFlags v a (eo + go) =
        "-i \"" ++ v ++ "\" -i \"" ++ a ++ "\" -c:v copy -c:a mp3 " ++
          "-af \"adelay=" ++ toString (eo + go) ++ "|" ++ toString (eo + go) ++
          "\" -map 0:v:0 -map 1:a:0") ∧
    (eo + go < 0 →
      muxStrategy (eo + go) = MuxStrategy.itsoffsetVideo ∧
      inputFlags v a (eo + go) =
        "-i \"" ++ a ++ "\" -itsoffset " ++ timedeltaStr (-(eo + go)).toNat ++
          " -i \"" ++ v ++ "\" -c:a copy -c:v copy -map 1:v:0 -map 0:a:0") ∧
    (∀ (g : Int) (e : EntryState) (r : LoadResult) (env : PipeEnv),
      e.loadResult = some r → r.width ≠ 0 → r.height ≠ 0 →
      env.cancelAfterLoad = false → env.cancelAfterShift = false →
      e.pitch_shift = 0 →
      (entryProcess g e env).muxFlags =
        some (inputFlags (joinPath e.path r.video_path)
          (joinPath e.path r.audio_path) (e.offset_ms + g))) := by
  refine ⟨⟨by rw [hsum], by rw [hsum]⟩, ?_, ?_, ?_, ?_⟩
  · intro h0
    exact ⟨by simp [muxStrategy, h0], by simp [inputFlags, h0]⟩
  · intro hpos
    have hne : ¬(eo + go = 0) := by omega
    exact ⟨by simp [muxStrategy, hne, hpos], by simp [inputFlags, hne, hpos]⟩
  · intro hneg
    have hne : ¬(eo + go = 0) := by omega
    have hnp : ¬(0 < eo + go) := by omega
    exact ⟨by simp [muxStrategy, hne, hnp], by simp [inputFlags, hne, hnp]⟩
  · intro g e r env h1 h2 h3 h4 h5 h6
    exact entryProcess_muxFlags g e r env h1 h2 h3 h4 h5 h6

/-- Witness for `c5_mux_strategy_selection`: the spec's scenario, with entry
offsets `+500`, `-500` and `0` against a zero global offset, and an entry whose
global offset `-300` cancels its entry offset `+300`; plus a concrete pipeline
run reaching the mux step. -/
theorem c5_mux_strategy_selection_witness :
    (muxStrategy ((500 : Int) + 0) = MuxStrategy.adelayReencodeAudio) ∧
    (muxStrategy ((-500 : Int) + 0) = MuxStrategy.itsoffsetVideo) ∧
    (muxStrategy ((0 : Int) + 0) = MuxStrategy.streamCopyBoth) ∧
    (inputFlags "v.mp4" "a.mp3" ((300 : Int) + (-300)) =
      inputFlags "v.mp4" "a.mp3" ((0 : Int) + 0)) ∧
    ((entryProcess 0 c1Entry { }).muxFlags =
      some (inputFlags (joinPath c1Entry.path "v.mp4") (joinPath c1Entry.path "a.mp3")
        ((0 : Int) + 0))) := by
  refine ⟨?_, ?_, ?_, ?_, ?_⟩
  · exact ((c5_mux_strategy_selection "v.mp4" "a.mp3" 500 0 500 0 rfl).2.2.1
      (by decide)).1
  · exact ((c5_mux_strategy_selection "v.mp4" "a.mp3" (-500) 0 (-500) 0 rfl).2.2.2.1
      (by decide)).1
  · exact ((c5_mux_strategy_selection "v.mp4" "a.mp3" 0 0 0 0 rfl).2.1 rfl).1
  · exact (c5_mux_strategy_selection "v.mp4" "a.mp3" 300 (-300) 0 0 (by decide)).1.1
  · exact (c5_mux_strategy_selection "v.mp4" "a.mp3" 0 0 0 0 rfl).2.2.2.2 0 c1Entry
      { video_path := "v.mp4", audio_path := "a.mp3", width := 640, height := 480 }
      { } rfl (by decide) (by decide) rfl rfl rfl

/-- The first unprocessed pending entry is indeed unprocessed. -/
theorem firstUnprocessed_not_processed {l : List EntryState} {en : EntryState}
    (h : firstUnprocessed l = some en) : en.processed = false := by
  have := List.find?_some h
  simpa using this

/-- A per-queue candidate is always unprocessed. -/
theorem queueCandidate_not_processed {q : QueueState} {en : EntryState}
    (h : queueCandidate q = some en) : en.processed = false := by
  unfold queueCandidate at h
  cases hc : q.current with
  | none =>
    rw [hc] at h
    exact firstUnprocessed_not_processed h
  | some c =>
    rw [hc] at h
    dsimp only at h
    by_cases hp : c.processed = true
    · simp only [hp, Bool.not_true, Bool.false_eq_true, if_false] at h
      exact firstUnprocessed_not_processed h
    · have hp' : c.processed = false := by
        cases hcp : c.processed
        · rfl
        · exact absurd hcp hp
      simp only [hp', Bool.not_false, if_true] at h
      rw [← Option.some.inj h]
      exact hp'

/-- The selected entry is always unprocessed. -/
theorem selectEntry_not_processed {qs : List QueueState} {en : EntryState}
    (h : selectEntry qs = some en) : en.processed = false := by
  induction qs with
  | nil => simp [selectEntry] at h
  | cons q rest ih =>
    rw [selectEntry, List.findSome?_cons] at h
    cases hq : queueCandidate q with
    | some c =>
      rw [hq] at h
      simp at h
      rw [← h]
      exact queueCandidate_not_processed hq
    | none =>
      rw [hq] at h
      exact ih h

/-- C6: the Background Processor's work selection. A selected entry is never
one with `processed = true`; within a queue the candidate is `current` when it
exists and is unprocessed, otherwise the first unprocessed pending entry in
FIFO order; the scan takes the first queue (in registry iteration order)
yielding any candidate; and an entry coming out of a successfully completed
pipeline run carries `processed = true` and hence is never selected again
(until a reset clears the flag). -/
theorem c6_background_selection :
    (∀ (qs : List QueueState) (en : EntryState),
      selectEntry qs = some en → en.processed = false) ∧
    (∀ (q : QueueState) (c : EntryState),
      q.current = some c → c.processed = false → queueCandidate q = some c) ∧
    (∀ (q : QueueState) (c : EntryState),
      q.current = some c → c.processed = true →
        queueCandidate q = firstUnprocessed q.queue) ∧
    (∀ q : QueueState, q.current = none →
        queueCandidate q = firstUnprocessed q.queue) ∧
    (∀ (q : QueueState) (rest : List QueueState),
      selectEntry (q :: rest) = (queueCandidate q).or (selectEntry rest)) ∧
    (∀ (g : Int) (e : EntryState) (env : PipeEnv),
      (createProcessTaskRun g e env).exc = none →
      (createProcessTaskRun g e env).entry.processed = true ∧
      ∀ qs : List QueueState,
        selectEntry qs ≠ some (createProcessTaskRun g e env).entry) := by
  refine ⟨fun _ _ h => selectEntry_not_processed h, ?_, ?_, ?_, ?_, ?_⟩
  · intro q c hc hp
    simp [queueCandidate, hc, hp]
  · intro q c hc hp
    simp [queueCandidate, hc, hp]
  · intro q hc
    simp [queueCandidate, hc]
  · intro q rest
    rw [selectEntry, List.findSome?_cons]
    cases hq : queueCandidate q with
    | some c => simp [selectEntry]
    | none => simp [selectEntry]
  · intro g e env hexc
    have hproc : (createProcessTaskRun g e env).entry.processed = true := by
      unfold createProcessTaskRun at hexc ⊢
      cases hres : (entryProcess g { (resetEntry e).1 with hasProcessTaskCancel := true }
          env).exc with
      | none => simp [hres]
      | some ex => simp [hres] at hexc
    refine ⟨hproc, fun qs hsel => ?_⟩
    have := selectEntry_not_processed hsel
    rw [hproc] at this
    exact Bool.noConfusion this

/-- Witness for `c6_background_selection` at a concrete registry: the first
queue's unprocessed current wins over a later queue, and a processed current
defers to the first unprocessed pending entry. -/
theorem c6_background_selection_witness :
    queueCandidate { guild_id := 1, channel_id := 1, current := some c1Entry } =
      some c1Entry ∧
    queueCandidate
      { guild_id := 1, channel_id := 1, current := some c3Entry,
        queue := [c4Base] } = firstUnprocessed [c4Base] ∧
    selectEntry [{ guild_id := 1, channel_id := 1, current := some c1Entry },
        { guild_id := 1, channel_id := 2, current := some c2Entry }] =
      (queueCandidate { guild_id := 1, channel_id := 1, current := some c1Entry }).or
        (selectEntry [{ guild_id := 1, channel_id := 2, current := some c2Entry }]) ∧
    (createProcessTaskRun 0 c2Entry c2Env).entry.processed = true := by
  refine ⟨?_, ?_, ?_, ?_⟩
  · exact c6_background_selection.2.1
      { guild_id := 1, channel_id := 1, current := some c1Entry } c1Entry rfl (by decide)
  · exact c6_background_selection.2.2.1
      { guild_id := 1, channel_id := 1, current := some c3Entry, queue := [c4Base] }
      c3Entry rfl (by decide)
  · exact c6_background_selection.2.2.2.2.1
      { guild_id := 1, channel_id := 1, current := some c1Entry }
      [{ guild_id := 1, channel_id := 2, current := some c2Entry }]
  · exact (c6_background_selection.2.2.2.2.2 0 c2Entry c2Env (by decide)).1

/-- The continuation of `_process` past the load loop never invokes a load
function: its invocation count is whatever the prefix reported. -/
theorem entryProcessCont_loadsInvoked (g : Int) (e : EntryState) (r : LoadResult)
    (env : PipeEnv) (n : Nat) : (entryProcessCont g e r env n).loadsInvoked = n := by
  unfold entryProcessCont
  split_ifs
  · rfl
  · unfold processLoadResult
    split <;> rename_i hprobe
    · rfl
    · split_ifs <;> rfl
  · unfold processLoadResult
    split_ifs <;> rfl

/-- A pipeline run on an entry whose raw-media cache is populated invokes no
load function. -/
theorem entryProcess_cached_no_loads (g : Int) (e : EntryState) (r : LoadResult)
    (env : PipeEnv) (h : e.loadResult = some r) :
    (entryProcess g e env).loadsInvoked = 0 := by
  unfold entryProcess
  rw [h]
  exact entryProcessCont_loadsInvoked g e r env 0

/-- C7: `onchange_locked` (run for a pitch-shift, per-entry offset, or queue
global-offset change) fires the cancel event of the in-flight processing task
exactly when one exists, clears `processed`, `load_msg` and `error_msg`, and
leaves the cached raw `LoadResult` unchanged; consequently a subsequent
reprocess via `create_process_task` on an entry whose download cache is
populated invokes zero load functions — only the transcode step reruns. -/
theorem c7_onchange_keeps_download_cache (e : EntryState) (r : LoadResult)
    (h : e.loadResult = some r) :
    (onchangeLocked e).1.processed = false ∧
    (onchangeLocked e).1.load_msg = "" ∧
    (onchangeLocked e).1.error_msg = "" ∧
    (onchangeLocked e).1.loadResult = e.loadResult ∧
    (onchangeLocked e).2.1 = e.hasProcessTaskCancel ∧
    (∀ (g : Int) (env : PipeEnv),
      (createProcessTaskRun g (onchangeLocked e).1 env).loadsInvoked = 0) := by
  refine ⟨rfl, rfl, rfl, rfl, rfl, fun g env => ?_⟩
  unfold createProcessTaskRun
  have hcache : ({ (resetEntry (onchangeLocked e).1).1 with
      hasProcessTaskCancel := true } : EntryState).loadResult = some r := by
    simp [resetEntry, onchangeLocked, h]
  have hn := entryProcess_cached_no_loads g
    ({ (resetEntry (onchangeLocked e).1).1 with hasProcessTaskCancel := true }) r env hcache
  cases hres : (entryProcess g
      ({ (resetEntry (onchangeLocked e).1).1 with hasProcessTaskCancel := true }) env).exc with
  | none =>
    simp only [hres]
    simpa [hres] using hn
  | some ex =>
    simp only [hres]
    simpa [hres] using hn

/-- A processed entry with a populated download cache and an in-flight task,
about to receive a pitch/offset change. -/
def c7Entry : EntryState :=
  { c1Entry with hasProcessTaskCancel := true, processed := true, error_msg := "Error: x" }

/-- Witness for `c7_onchange_keeps_download_cache` at a concrete entry with a
populated cache and an in-flight task. -/
theorem c7_onchange_keeps_download_cache_witness :
    (onchangeLocked c7Entry).1.loadResult = c7Entry.loadResult ∧
    (onchangeLocked c7Entry).2.1 = true ∧
    (createProcessTaskRun 0 (onchangeLocked c7Entry).1 { }).loadsInvoked = 0 := by
  have hmain := c7_onchange_keeps_download_cache c7Entry
    { video_path := "v.mp4", audio_path := "a.mp3", width := 640, height := 480 } rfl
  exact ⟨hmain.2.2.2.1, hmain.2.2.2.2.1, hmain.2.2.2.2.2 0 { }⟩

/-- What the deletion scan returns when it finds a match: the removed element
is the one searched for, the list shrinks by exactly one, and the old list is a
permutation of the removed element consed onto the new list. -/
theorem deleteFirstMatch_spec {l l2 : List EntryState} {en x : EntryState}
    (h : deleteFirstMatch l en = some (l2, x)) :
    x = en ∧ l2.length + 1 = l.length ∧ l.Perm (x :: l2) := by
  induction l generalizing l2 with
  | nil => simp [deleteFirstMatch] at h
  | cons y rest ih =>
    rw [deleteFirstMatch] at h
    by_cases hy : y = en
    · rw [if_pos hy] at h
      obtain ⟨h1, h2⟩ := Prod.mk.inj (Option.some.inj h)
      subst h1
      subst h2
      exact ⟨hy, rfl, List.Perm.refl _⟩
    · rw [if_neg hy] at h
      cases hrec : deleteFirstMatch rest en with
      | none => rw [hrec] at h; exact Option.noConfusion h
      | some p =>
        rw [hrec] at h
        obtain ⟨h1, h2⟩ := Prod.mk.inj (Option.some.inj h)
        have hsome : deleteFirstMatch rest en = some (p.1, x) := by
          rw [← h2]
          exact hrec
        obtain ⟨hx, hlen, hperm⟩ := ih hsome
        subst h1
        refine ⟨hx, ?_, ?_⟩
        · simp only [List.length_cons]
          omega
        · exact (List.Perm.cons y hperm).trans (List.Perm.swap x y p.1)

/-- The deletion scan finds a match whenever the searched entry is in the
list. -/
theorem deleteFirstMatch_of_mem {l : List EntryState} {en : EntryState}
    (h : en ∈ l) : ∃ p, deleteFirstMatch l en = some p := by
  induction l with
  | nil => simp at h
  | cons y rest ih =>
    rw [deleteFirstMatch]
    by_cases hy : y = en
    · rw [if_pos hy]
      exact ⟨(rest, y), rfl⟩
    · rw [if_neg hy]
      have hmem : en ∈ rest := by
        cases List.mem_cons.mp h with
        | inl heq => exact absurd heq.symm hy
        | inr hm => exact hm
      obtain ⟨p, hp⟩ := ih hmem
      rw [hp]
      exact ⟨(y :: p.1, p.2), rfl⟩

/-- An entry in the C8 queue whose working directory exists on disk. -/
def c8Entry : EntryState :=
  { path := "serve/e8", title := "t8", original_url := "u8", user_id := 1,
    pitch_shift := 0, offset_ms := 0, hasProcessTaskCancel := true }

/-- A queue holding just `c8Entry`. -/
def c8Queue : QueueState :=
  { guild_id := 1, channel_id := 2, queue := [c8Entry] }

/-- C8 counterexample: the confirmed deletion removes the entry from the queue,
but its working directory still exists afterwards — `Entry.delete`
(src/karaqueue/common.py lines 116-119) only resets the entry and sets
`error_msg = 'Cancelled'`; no statement of the deletion path removes the
directory, so subsequent access to its files still succeeds. -/
theorem c8_counterexample :
    (deleteConfirm ["serve/e8"] c8Queue c8Entry).removed = true ∧
    (deleteConfirm ["serve/e8"] c8Queue c8Entry).q.queue.length + 1 =
      c8Queue.queue.length ∧
    c8Entry.path ∈ (deleteConfirm ["serve/e8"] c8Queue c8Entry).fs := by
  decide

/-- C8 (amended): deleting an Entry at a valid index (after confirmation)
removes exactly that one Entry from the queue — the queue length shrinks by 1
and the old pending list is a permutation of the deleted entry consed onto the
new one — fires the cancel event of its in-flight work exactly when one exists,
and leaves `current` untouched; but it does not release the entry's working
directory: the set of directories on disk is unchanged. -/
theorem c8_delete_amended (fs : List String) (q : QueueState) (en : EntryState)
    (index : Nat) (hpick : deleteIndexPick q index = some en) :
    (deleteConfirm fs q en).removed = true ∧
    (deleteConfirm fs q en).q.queue.length + 1 = q.queue.length ∧
    q.queue.Perm (en :: (deleteConfirm fs q en).q.queue) ∧
    (deleteConfirm fs q en).q.current = q.current ∧
    (deleteConfirm fs q en).cancelFired = en.hasProcessTaskCancel ∧
    (deleteConfirm fs q en).fs = fs := by
  have hmem : en ∈ q.queue := by
    unfold deleteIndexPick at hpick
    split_ifs at hpick
    exact List.get?_mem hpick
  obtain ⟨p, hp⟩ := deleteFirstMatch_of_mem hmem
  have hp2 : deleteFirstMatch q.queue en = some (p.1, p.2) := hp
  obtain ⟨hx, hlen, hperm⟩ := deleteFirstMatch_spec hp2
  unfold deleteConfirm
  rw [hp2]
  subst hx
  exact ⟨rfl, hlen, hperm, rfl, rfl, rfl⟩

/-- Witness for `c8_delete_amended` at the concrete C8 queue and index 1. -/
theorem c8_delete_amended_witness :
    (deleteConfirm ["serve/e8"] c8Queue c8Entry).removed = true ∧
    (deleteConfirm ["serve/e8"] c8Queue c8Entry).cancelFired = true ∧
    (deleteConfirm ["serve/e8"] c8Queue c8Entry).fs = ["serve/e8"] := by
  have hmain := c8_delete_amended ["serve/e8"] c8Queue c8Entry 1 (by decide)
  exact ⟨hmain.1, hmain.2.2.2.2.1, hmain.2.2.2.2.2⟩

/-- C9: in local playback mode the player monitor triggers the queue advance
exactly when no shutdown is pending, the status call succeeded with a status,
the reported filename matches the basename of the entry's processed output file
(which `video_path()` only exposes once `processed` is true), playback was
already observed mid-file, and the position has reached the duration or reset
to zero; and the advance it schedules — `_next` with `is_user_action=False` —
performs the same queue transformation as the user-initiated `/next` command
(`_next` with `is_user_action=True`): the two differ only in the ephemeral
debounce message. -/
theorem c9_monitor_completion (e : EntryState) (h : e.processed = true) :
    videoPathFn e = Except.ok e.processedPath ∧
    (∀ (ps cancel raises : Bool) (status : Option FullPlayerStatus),
      monitorStep (basename e.processedPath) ps cancel raises status =
          MonitorOutcome.advanceQueue ↔
        cancel = false ∧ raises = false ∧
        ∃ st : FullPlayerStatus, status = some st ∧
          st.filename = basename e.processedPath ∧ ps = true ∧
          (st.position = st.duration ∨ st.position = 0)) ∧
    (∀ (now : Int) (q : QueueState),
      (nextLocked now false q).q = (nextLocked now true q).q ∧
      (nextLocked now false q).advanced = (nextLocked now true q).advanced) := by
  refine ⟨by simp [videoPathFn, h], ?_, ?_⟩
  · intro ps cancel raises status
    cases cancel with
    | true => simp [monitorStep]
    | false =>
      cases raises with
      | true => simp [monitorStep]
      | false =>
        cases status with
        | none => simp [monitorStep]
        | some st =>
          simp only [monitorStep, Bool.false_eq_true, if_false]
          by_cases hf : st.filename = basename e.processedPath
          · rw [if_pos hf]
            by_cases hdone : ps = true ∧ (st.position = st.duration ∨ st.position = 0)
            · rw [if_pos hdone]
              simp [hf, hdone.1, hdone.2]
            · rw [if_neg hdone]
              constructor
              · intro hcl
                exact MonitorOutcome.noConfusion hcl
              · rintro ⟨-, -, st2, hst2, -, hps, hpos⟩
                obtain rfl := Option.some.inj hst2
                exact absurd ⟨hps, hpos⟩ hdone
          · rw [if_neg hf]
            constructor
            · intro hcl
              by_cases hps : ps = true
              · rw [if_pos hps] at hcl
                exact MonitorOutcome.noConfusion hcl
              · rw [if_neg hps] at hcl
                exact MonitorOutcome.noConfusion hcl
            · rintro ⟨-, -, st2, hst2, hfn, -, -⟩
              obtain rfl := Option.some.inj hst2
              exact absurd hfn hf
  · intro now q
    unfold nextLocked
    cases q.next_advance_time with
    | none => exact ⟨rfl, rfl⟩
    | some t =>
      by_cases ht : now < t
      · simp [ht]
      · simp [ht]

/-- Witness for `c9_monitor_completion` at a concrete processed entry, a
matching status at the end of the file, and a concrete queue advance. -/
theorem c9_monitor_completion_witness :
    monitorStep (basename c3Entry.processedPath) true false false
        (some { position := 180000, duration := 180000,
                filename := basename c3Entry.processedPath }) =
      MonitorOutcome.advanceQueue ∧
    (nextLocked 0 false c8Queue).q = (nextLocked 0 true c8Queue).q := by
  constructor
  · exact ((c9_monitor_completion c3Entry rfl).2.1 true false false
      (some { position := 180000, duration := 180000,
              filename := basename c3Entry.processedPath })).mpr
      ⟨rfl, rfl, _, rfl, rfl, rfl, Or.inl rfl⟩
  · exact ((c9_monitor_completion c3Entry rfl).2.2 0 c8Queue).1

/-- C10: all `Queue` instances share one and the same lock object. For any two
queues obtained from the registry via `get_queue`, the lock they resolve to is
the identical object (the class attribute allocated once at class-definition
time), and while that lock is held on behalf of one channel's queue, an
acquisition attempt for any other channel's queue blocks. -/
theorem c10_queue_lock_shared (allowed : List Nat)
    (reg1 reg2 r1 r2 : List ((Nat × Nat) × QueueState))
    (g1 ch1 g2 ch2 : Nat) (q1 q2 : QueueState)
    (h1 : getQueue allowed reg1 g1 ch1 = Except.ok (r1, q1))
    (h2 : getQueue allowed reg2 g2 ch2 = Except.ok (r2, q2)) :
    queueLock q1 = queueLock q2 ∧
    ∀ held : Nat → Bool, held (queueLock q1) = true →
      canAcquire held (queueLock q2) = false := by
  refine ⟨rfl, fun held hh => ?_⟩
  have hh2 : held queueClassLockId = true := hh
  simp [canAcquire, queueLock, hh2]

/-- Witness for `c10_queue_lock_shared`: two different channels' queues fetched
from the same registry share the lock, and holding it for one blocks the
other. -/
theorem c10_queue_lock_shared_witness :
    queueLock { guild_id := 1, channel_id := 5 } =
      queueLock { guild_id := 1, channel_id := 6 } ∧
    canAcquire (fun l => decide (l = queueClassLockId))
      (queueLock { guild_id := 1, channel_id := 6 }) = false := by
  have hq1 : getQueue [1] [] 1 5 =
      Except.ok ([((1, 5), { guild_id := 1, channel_id := 5 })],
        ({ guild_id := 1, channel_id := 5 } : QueueState)) := by
    decide
  have hq2 : getQueue [1] [] 1 6 =
      Except.ok ([((1, 6), { guild_id := 1, channel_id := 6 })],
        ({ guild_id := 1, channel_id := 6 } : QueueState)) := by
    decide
  have hmain := c10_queue_lock_shared [1] [] []
    [((1, 5), { guild_id := 1, channel_id := 5 })]
    [((1, 6), { guild_id := 1, channel_id := 6 })]
    1 5 1 6 { guild_id := 1, channel_id := 5 } { guild_id := 1, channel_id := 6 }
    hq1 hq2
  exact ⟨hmain.1, hmain.2 (fun l => decide (l = queueClassLockId)) (by decide)⟩

end Karaqueue


